import Mathlib

/-!
Shallow embedding of the Flask dashboard in apps/dashboard/app.py:
configuration resolution from volume-mounted secret files, the database
health check, and the two HTTP handlers.  The Python filesystem, environment
and database are modelled explicitly; every primitive effect the handlers
perform (opening a file, attempting a connection, opening, querying and
closing a connection) is recorded in an event trace so that resource-lifecycle
properties can be stated.
-/

namespace Dashboard

/-- Embeds Python ASCII whitespace as stripped by str.strip (the secret files
hold ASCII values, so the Unicode cases are irrelevant). -/
def pyWhitespaceChar (c : Char) : Bool :=
  c == ' ' || c == '\t' || c == '\n' || c == '\r' || c == '\x0b' || c == '\x0c'

/-- Embeds Python str.strip(): drop leading and trailing whitespace. -/
def pyStrip (s : String) : String :=
  String.mk (((s.data.dropWhile pyWhitespaceChar).reverse.dropWhile pyWhitespaceChar).reverse)

/-- Embeds s.split(",")[0]: the characters before the first comma (the whole
string when no comma occurs). -/
def splitFirst (s : String) : String :=
  String.mk (s.data.takeWhile (fun c => !(c == ',')))

/-- Embeds os.path.join for the POSIX two-argument case used by the app. -/
def osPathJoin (a b : String) : String :=
  if b.data.head? = some '/' then b
  else if a.data = [] then b
  else if a.data.getLast? = some '/' then a ++ b
  else a ++ "/" ++ b

/-- State of one path in the modelled filesystem: missing (open raises
FileNotFoundError), present but unreadable (open raises an OSError other than
FileNotFoundError, e.g. PermissionError), or readable with given contents. -/
inductive FileState
  | absent
  | unreadable
  | readable (content : String)
deriving DecidableEq

/-- The filesystem: a map from paths to file states. -/
structure Fs where
  file : String → FileState

/-- The process environment: a map from variable names to optional values
(os.getenv). -/
abbrev Env := String → Option String

/-- Embeds os.getenv(key, default). -/
def getenv (env : Env) (key default : String) : String :=
  (env key).getD default

/-- The module-level constants DB_SECRET_DIR and DB_NAME, read from the
environment once, when the module is imported. -/
structure ModuleState where
  dbSecretDir : String
  dbName : String
deriving DecidableEq

/-- Embeds the module-import-time reads at the top of app.py:
DB_SECRET_DIR = os.getenv("DB_SECRET_DIR", "/etc/db-secrets") and
DB_NAME = os.getenv("DB_NAME", "postgres"). -/
def loadModule (env : Env) : ModuleState :=
  { dbSecretDir := getenv env "DB_SECRET_DIR" "/etc/db-secrets"
    dbName := getenv env "DB_NAME" "postgres" }

/-- Python exceptions that the modelled primitives can raise. -/
inductive PyError
  | fileNotFound (path : String)
  | osError (path : String)
deriving DecidableEq

/-- Observable effects performed by the handlers, recorded in order. -/
inductive Event
  | readFile (path : String)
  | connectAttempt (host port dbname user password : String) (timeoutSecs : Nat)
  | connOpened
  | query (sql : String)
  | cursorClosed
  | connClosed
deriving DecidableEq

/-- Embeds open(path) followed by f.read(): the contents, or the exception
the open raises. -/
def openFile (fs : Fs) (path : String) : Except PyError String :=
  match fs.file path with
  | .readable c => .ok c
  | .absent => .error (.fileNotFound path)
  | .unreadable => .error (.osError path)

/-- Embeds _read_secret(key, fallback): join the secret dir with the key, try
to read and strip the file, and catch (only) FileNotFoundError, returning the
fallback.  Any other exception propagates.  Paired with the trace of effects. -/
def read_secret (ms : ModuleState) (fs : Fs) (key fallback : String) :
    Except PyError String × List Event :=
  let path := osPathJoin ms.dbSecretDir key
  match openFile fs path with
  | .ok c => (.ok (pyStrip c), [.readFile path])
  | .error (.fileNotFound _) => (.ok fallback, [.readFile path])
  | .error e => (.error e, [.readFile path])

/-- The dictionary returned by _get_db_config. -/
structure DbConfig where
  host : String
  port : String
  user : String
  password : String
deriving DecidableEq

/-- Embeds _get_db_config(): the four _read_secret calls, in the order Python
evaluates the dict literal; the first exception aborts the remaining reads. -/
def get_db_config (ms : ModuleState) (fs : Fs) :
    Except PyError DbConfig × List Event :=
  match read_secret ms fs "host" "" with
  | (.error e, t) => (.error e, t)
  | (.ok host, t1) =>
    match read_secret ms fs "port" "5432" with
    | (.error e, t) => (.error e, t1 ++ t)
    | (.ok port, t2) =>
      match read_secret ms fs "username" "pgadmin" with
      | (.error e, t) => (.error e, t1 ++ t2 ++ t)
      | (.ok user, t3) =>
        match read_secret ms fs "password" "" with
        | (.error e, t) => (.error e, t1 ++ t2 ++ t3 ++ t)
        | (.ok password, t4) =>
          (.ok { host := host, port := port, user := user, password := password },
           t1 ++ t2 ++ t3 ++ t4)

/-- Behaviour of the database world for one request: either
psycopg2.connect raises (with the given stringified error), or it succeeds
and the subsequent cursor/execute/fetchone steps either yield a row whose
first column is rawVersion, or raise (with the given stringified error). -/
inductive QueryOutcome
  | ok (rawVersion : String)
  | fail (errMsg : String)
deriving DecidableEq

/-- The modelled database reachable from the resolved host. -/
inductive DbWorld
  | noConnect (errMsg : String)
  | connected (outcome : QueryOutcome)
deriving DecidableEq

/-- The stringified error str(exc) that the database world produces for this
request, when it produces one. -/
def dbErrMsg : DbWorld → Option String
  | .noConnect m => some m
  | .connected (.fail m) => some m
  | .connected (.ok _) => none

/-- The literal message returned while the host secret is not provisioned. -/
def waitingMsg : String := "Waiting for database to be provisioned..."

/-- Embeds _check_db(): resolve the config (exceptions here propagate, the
try block has not started); if host is falsy return the waiting message;
otherwise attempt the connection and the version query inside
try/except Exception, which converts any raise into (False, str(exc)).
On the success path the cursor and connection are closed; on the
post-connect failure path control jumps to the except clause and no close
runs.  Paired with the trace of effects. -/
def check_db (ms : ModuleState) (fs : Fs) (db : DbWorld) :
    Except PyError (Bool × String) × List Event :=
  match get_db_config ms fs with
  | (.error e, t) => (.error e, t)
  | (.ok cfg, t0) =>
    if cfg.host = "" then (.ok (false, waitingMsg), t0)
    else
      match db with
      | .noConnect msg =>
        (.ok (false, msg),
         t0 ++ [.connectAttempt cfg.host cfg.port ms.dbName cfg.user cfg.password 3])
      | .connected outcome =>
        let t1 := t0 ++ [.connectAttempt cfg.host cfg.port ms.dbName cfg.user cfg.password 3,
                         .connOpened]
        match outcome with
        | .fail msg => (.ok (false, msg), t1 ++ [.query "SELECT version();"])
        | .ok raw =>
          (.ok (true, splitFirst raw),
           t1 ++ [.query "SELECT version();", .cursorClosed, .connClosed])

/-- The template variables passed to render_template_string by index(). -/
structure Page where
  db_ok : Bool
  db_version : String
  db_error : String
  db_host : String
  db_port : String
deriving DecidableEq

/-- Embeds index(): resolve the config again for display, run the health
check, and fill the template variables; cfg["host"] or "(pending)" renders
the placeholder exactly when the host is the empty string. -/
def index (ms : ModuleState) (fs : Fs) (db : DbWorld) :
    Except PyError Page × List Event :=
  match get_db_config ms fs with
  | (.error e, t) => (.error e, t)
  | (.ok cfg, t1) =>
    match check_db ms fs db with
    | (.error e, t) => (.error e, t1 ++ t)
    | (.ok r, t2) =>
      (.ok { db_ok := r.1
             db_version := if r.1 then r.2 else ""
             db_error := if r.1 then "" else r.2
             db_host := if cfg.host = "" then "(pending)" else cfg.host
             db_port := cfg.port },
       t1 ++ t2)

/-- Embeds healthz(): return "ok", 200 unconditionally; the body performs no
effect, so its trace is empty whatever the world looks like. -/
def healthz (_ms : ModuleState) (_fs : Fs) (_db : DbWorld) :
    (String × Nat) × List Event :=
  (("ok", 200), [])

/-- Recognises the file-read events. -/
def isReadFile : Event → Bool
  | .readFile _ => true
  | _ => false

/-- Recognises the connection-attempt events. -/
def isConnectAttempt : Event → Bool
  | .connectAttempt .. => true
  | _ => false

/-- Recognises the connection-opened events. -/
def isConnOpened : Event → Bool
  | .connOpened => true
  | _ => false

/-- Recognises the connection-closed events. -/
def isConnClosed : Event → Bool
  | .connClosed => true
  | _ => false

/-- Number of connection attempts in a trace. -/
def countAttempts (t : List Event) : Nat := t.countP isConnectAttempt

/-- Number of successfully opened connections in a trace. -/
def countOpened (t : List Event) : Nat := t.countP isConnOpened

/-- Number of connection closes in a trace. -/
def countClosed (t : List Event) : Nat := t.countP isConnClosed

/-- Concrete worlds used by witnesses and counterexamples. -/
def ms0 : ModuleState := { dbSecretDir := "/etc/db-secrets", dbName := "postgres" }

/-- A filesystem with no secret files at all. -/
def fsEmpty : Fs := ⟨fun _ => .absent⟩

/-- A filesystem whose only secret file is host, with the given contents. -/
def fsHost (c : String) : Fs :=
  ⟨fun p => if p = "/etc/db-secrets/host" then .readable c else .absent⟩

/-- A filesystem with all four secret files provisioned under the default
secret directory, with the given contents. -/
def fsAll (ch cp cu cw : String) : Fs :=
  ⟨fun p =>
    if p = "/etc/db-secrets/host" then .readable ch
    else if p = "/etc/db-secrets/port" then .readable cp
    else if p = "/etc/db-secrets/username" then .readable cu
    else if p = "/etc/db-secrets/password" then .readable cw
    else .absent⟩

/-- An environment that sets plausible per-field fallback variables for
host, port, user and password; app.py reads none of these names (its only
os.getenv calls are DB_SECRET_DIR and DB_NAME). -/
def envFallbacks : Env := fun k =>
  if k = "DB_HOST" then some "envhost"
  else if k = "DB_PORT" then some "6543"
  else if k = "DB_USER" then some "envuser"
  else if k = "DB_PASSWORD" then some "envpw"
  else none

/-- The environment at module-import time in the C5 scenario. -/
def envInit : Env := fun k => if k = "DB_NAME" then some "gwsdb" else none

/-- The environment after an external change of DB_NAME, with no restart. -/
def envChanged : Env := fun k => if k = "DB_NAME" then some "newdb" else none

/-- The database names carried by the connection attempts of a trace. -/
def connectDbNames (t : List Event) : List String :=
  t.filterMap (fun e =>
    match e with
    | .connectAttempt _ _ d _ _ _ => some d
    | _ => none)

/-- A _read_secret call performs exactly one effect: the attempted file read. -/
theorem read_secret_trace (ms : ModuleState) (fs : Fs) (k fb : String) :
    (read_secret ms fs k fb).2 = [Event.readFile (osPathJoin ms.dbSecretDir k)] := by
  unfold read_secret openFile
  rcases h : fs.file (osPathJoin ms.dbSecretDir k) with _ | _ | c <;> simp [h]

/-- Every event in a _read_secret trace is a file read. -/
theorem read_secret_only_reads (ms : ModuleState) (fs : Fs) (k fb : String) :
    ∀ e ∈ (read_secret ms fs k fb).2, isReadFile e = true := by
  rw [read_secret_trace]
  intro e he
  rw [List.mem_singleton] at he
  subst he
  rfl

/-- Configuration resolution performs no connection attempt, open or close:
its trace consists of file reads only. -/
theorem get_db_config_counts (ms : ModuleState) (fs : Fs) :
    countAttempts (get_db_config ms fs).2 = 0 ∧
    countOpened (get_db_config ms fs).2 = 0 ∧
    countClosed (get_db_config ms fs).2 = 0 := by
  unfold get_db_config
  rcases h1 : read_secret ms fs "host" "" with ⟨r1, t1⟩
  rcases h2 : read_secret ms fs "port" "5432" with ⟨r2, t2⟩
  rcases h3 : read_secret ms fs "username" "pgadmin" with ⟨r3, t3⟩
  rcases h4 : read_secret ms fs "password" "" with ⟨r4, t4⟩
  have e1 : t1 = [Event.readFile (osPathJoin ms.dbSecretDir "host")] := by
    have h := read_secret_trace ms fs "host" ""; rw [h1] at h; exact h
  have e2 : t2 = [Event.readFile (osPathJoin ms.dbSecretDir "port")] := by
    have h := read_secret_trace ms fs "port" "5432"; rw [h2] at h; exact h
  have e3 : t3 = [Event.readFile (osPathJoin ms.dbSecretDir "username")] := by
    have h := read_secret_trace ms fs "username" "pgadmin"; rw [h3] at h; exact h
  have e4 : t4 = [Event.readFile (osPathJoin ms.dbSecretDir "password")] := by
    have h := read_secret_trace ms fs "password" ""; rw [h4] at h; exact h
  subst e1 e2 e3 e4
  cases r1 <;> cases r2 <;> cases r3 <;> cases r4 <;>
    simp [countAttempts, countOpened, countClosed, List.countP_append, List.countP_cons,
          isConnectAttempt, isConnOpened, isConnClosed]

/-- A trace with no connection attempts contains no connectAttempt event. -/
theorem not_mem_of_countAttempts_zero (t : List Event) (h : countAttempts t = 0)
    (hst po db us pw : String) (ti : Nat) :
    Event.connectAttempt hst po db us pw ti ∉ t := by
  intro hmem
  have := List.countP_eq_zero.mp h _ hmem
  simp [isConnectAttempt] at this

/-- The first comma-delimited segment of a string contains no comma. -/
theorem splitFirst_no_comma (s : String) : ',' ∉ (splitFirst s).data := by
  intro hmem
  have hmem2 : ',' ∈ s.data.takeWhile (fun c => !(c == ',')) := hmem
  have := List.mem_takeWhile_imp hmem2
  simp at this

/-- When the four secret files are readable at an invocation, the resolved
configuration is exactly their stripped contents, field by field. -/
theorem get_db_config_of_files (ms : ModuleState) (fs : Fs) (ch cp cu cw : String)
    (hh : fs.file (osPathJoin ms.dbSecretDir "host") = FileState.readable ch)
    (hp : fs.file (osPathJoin ms.dbSecretDir "port") = FileState.readable cp)
    (hu : fs.file (osPathJoin ms.dbSecretDir "username") = FileState.readable cu)
    (hw : fs.file (osPathJoin ms.dbSecretDir "password") = FileState.readable cw) :
    (get_db_config ms fs).1 =
      .ok { host := pyStrip ch, port := pyStrip cp, user := pyStrip cu,
            password := pyStrip cw } := by
  have r1 : read_secret ms fs "host" "" =
      (.ok (pyStrip ch), [.readFile (osPathJoin ms.dbSecretDir "host")]) := by
    unfold read_secret openFile
    simp [hh]
  have r2 : read_secret ms fs "port" "5432" =
      (.ok (pyStrip cp), [.readFile (osPathJoin ms.dbSecretDir "port")]) := by
    unfold read_secret openFile
    simp [hp]
  have r3 : read_secret ms fs "username" "pgadmin" =
      (.ok (pyStrip cu), [.readFile (osPathJoin ms.dbSecretDir "username")]) := by
    unfold read_secret openFile
    simp [hu]
  have r4 : read_secret ms fs "password" "" =
      (.ok (pyStrip cw), [.readFile (osPathJoin ms.dbSecretDir "password")]) := by
    unfold read_secret openFile
    simp [hw]
  unfold get_db_config
  rw [r1, r2, r3, r4]

/-- Every connection attempt made by _check_db carries the host and port of
the configuration it resolved. -/
theorem check_db_connect_params (ms : ModuleState) (fs : Fs) (db : DbWorld) (cfg : DbConfig)
    (hc : (get_db_config ms fs).1 = .ok cfg)
    (hst po dbn us pw : String) (ti : Nat)
    (hmem : Event.connectAttempt hst po dbn us pw ti ∈ (check_db ms fs db).2) :
    hst = cfg.host ∧ po = cfg.port := by
  have hA := (get_db_config_counts ms fs).1
  unfold check_db at hmem
  rcases hg : get_db_config ms fs with ⟨rc, t0⟩
  rw [hg] at hc hA hmem
  simp only at hc hA hmem
  subst hc
  by_cases hh : cfg.host = ""
  · simp only [hh, if_pos rfl] at hmem
    exact absurd hmem (not_mem_of_countAttempts_zero t0 hA hst po dbn us pw ti)
  · rcases db with msg | outcome
    · simp only [if_neg hh] at hmem
      simp at hmem
      rcases hmem with hm | hm
      · exact absurd hm (not_mem_of_countAttempts_zero t0 hA hst po dbn us pw ti)
      · obtain ⟨e1, e2, -⟩ := hm
        exact ⟨e1, e2⟩
    · rcases outcome with raw | msg <;>
        · simp only [if_neg hh] at hmem
          simp at hmem
          rcases hmem with hm | hm
          · exact absurd hm (not_mem_of_countAttempts_zero t0 hA hst po dbn us pw ti)
          · obtain ⟨e1, e2, -⟩ := hm
            exact ⟨e1, e2⟩

/-- Claim C1, counterexample: with the host secret provisioned and a world in
which the version query fails after the connection was opened, _check_db
returns having opened exactly one connection and performed zero closes — the
claim that every successfully opened connection is closed before the check
returns, on every failure path, is false of the code (the try block has no
finally, so the except path skips both close calls). -/
theorem conn_leak_on_query_failure :
    countOpened (check_db ms0 (fsHost "db1")
        (DbWorld.connected (QueryOutcome.fail "query interrupted"))).2 = 1 ∧
    countClosed (check_db ms0 (fsHost "db1")
        (DbWorld.connected (QueryOutcome.fail "query interrupted"))).2 = 0 :=
  ⟨rfl, rfl⟩

/-- Claim C1, amended: at most one connection is opened per check, and exactly
one when the check succeeds, in which case the cursor and the connection are
closed before returning; but on every failure path no close is performed at
all, so a connection opened before a query failure is leaked. -/
theorem check_db_conn_lifecycle (ms : ModuleState) (fs : Fs) (db : DbWorld) :
    countOpened (check_db ms fs db).2 ≤ 1 ∧
    (∀ v, (check_db ms fs db).1 = .ok (true, v) →
        countOpened (check_db ms fs db).2 = 1 ∧ countClosed (check_db ms fs db).2 = 1) ∧
    (∀ m, (check_db ms fs db).1 = .ok (false, m) → countClosed (check_db ms fs db).2 = 0) := by
  obtain ⟨hA, hO, hC⟩ := get_db_config_counts ms fs
  unfold check_db
  rcases hg : get_db_config ms fs with ⟨rc, t0⟩
  rw [hg] at hA hO hC
  simp only [countOpened, countClosed, countAttempts] at hA hO hC
  rcases rc with e | cfg
  · simp [countOpened, countClosed, hO, hC]
  · by_cases hh : cfg.host = ""
    · simp [hh, countOpened, countClosed, hO, hC]
    · rcases db with msg | outcome
      · simp only [hh, if_neg, ite_false]
        simp [countOpened, countClosed, List.countP_append, List.countP_cons,
              isConnOpened, isConnClosed, hO, hC]
      · rcases outcome with raw | msg <;>
          · simp only [hh, if_neg, ite_false]
            simp [countOpened, countClosed, List.countP_append, List.countP_cons,
                  isConnOpened, isConnClosed, hO, hC]

/-- Claim C1 witness: on a concrete success run the amended theorem yields
one open and one close. -/
theorem check_db_conn_lifecycle_witness :
    countOpened (check_db ms0 (fsHost "db1")
        (DbWorld.connected (QueryOutcome.ok "PostgreSQL 16.4, compiled by gcc"))).2 = 1 ∧
    countClosed (check_db ms0 (fsHost "db1")
        (DbWorld.connected (QueryOutcome.ok "PostgreSQL 16.4, compiled by gcc"))).2 = 1 :=
  (check_db_conn_lifecycle ms0 (fsHost "db1")
      (DbWorld.connected (QueryOutcome.ok "PostgreSQL 16.4, compiled by gcc"))).2.1
    "PostgreSQL 16.4" rfl

/-- Claim C2: the code has no environment-variable tier.  In an environment
that sets per-field variables for host, port, user and password, with no
secret files present, _get_db_config still resolves every field straight to
its hardcoded default — contradicting the header comment of the code itself:
"Falls back to env vars -> hardcoded defaults". -/
theorem get_db_config_ignores_env_vars :
    envFallbacks "DB_HOST" = some "envhost" ∧
    envFallbacks "DB_PORT" = some "6543" ∧
    envFallbacks "DB_USER" = some "envuser" ∧
    envFallbacks "DB_PASSWORD" = some "envpw" ∧
    (get_db_config (loadModule envFallbacks) fsEmpty).1 =
      .ok { host := "", port := "5432", user := "pgadmin", password := "" } :=
  ⟨rfl, rfl, rfl, rfl, rfl⟩

/-- Claim C3: when the resolved host is empty, _check_db returns failure with
the waiting-for-provisioning message and its trace contains no connection
attempt. -/
theorem check_db_pending_no_attempt (ms : ModuleState) (fs : Fs) (db : DbWorld) (cfg : DbConfig)
    (hc : (get_db_config ms fs).1 = .ok cfg) (hh : cfg.host = "") :
    (check_db ms fs db).1 = .ok (false, waitingMsg) ∧
    countAttempts (check_db ms fs db).2 = 0 := by
  have hA := (get_db_config_counts ms fs).1
  unfold check_db
  rcases hg : get_db_config ms fs with ⟨rc, t0⟩
  rw [hg] at hc hA
  simp only at hc hA
  subst hc
  simp [hh, hA]

/-- Claim C3 witness: with no secret files, the resolved host is empty, the
check reports the waiting message and attempts no connection. -/
theorem check_db_pending_no_attempt_witness :
    (check_db ms0 fsEmpty (DbWorld.noConnect "timeout")).1 = .ok (false, waitingMsg) ∧
    countAttempts (check_db ms0 fsEmpty (DbWorld.noConnect "timeout")).2 = 0 :=
  check_db_pending_no_attempt ms0 fsEmpty (DbWorld.noConnect "timeout")
    { host := "", port := "5432", user := "pgadmin", password := "" } rfl rfl

/-- Claim C4: with a non-empty resolved host, any error raised by the
connection attempt or by the query steps is caught at the _check_db boundary
and returned as a failure result carrying the stringified error; no exception
escapes. -/
theorem check_db_catches_errors (ms : ModuleState) (fs : Fs) (db : DbWorld)
    (cfg : DbConfig) (m : String)
    (hc : (get_db_config ms fs).1 = .ok cfg) (hh : ¬ cfg.host = "")
    (hd : dbErrMsg db = some m) :
    (check_db ms fs db).1 = .ok (false, m) := by
  unfold check_db
  rcases hg : get_db_config ms fs with ⟨rc, t0⟩
  rw [hg] at hc
  simp only at hc
  subst hc
  rcases db with msg | outcome
  · simp [dbErrMsg] at hd
    simp [hh, hd]
  · rcases outcome with raw | msg
    · simp [dbErrMsg] at hd
    · simp [dbErrMsg] at hd
      simp [hh, hd]

/-- Claim C4 witness: a concrete connection refusal is returned as a failure
string. -/
theorem check_db_catches_errors_witness :
    (check_db ms0 (fsHost "db1") (DbWorld.noConnect "connection timed out")).1 =
      .ok (false, "connection timed out") :=
  check_db_catches_errors ms0 (fsHost "db1") (DbWorld.noConnect "connection timed out")
    { host := "db1", port := "5432", user := "pgadmin", password := "" }
    "connection timed out" rfl (by decide) rfl

/-- Claim C5, counterexample: DB_NAME — the database-name component of the
connection configuration — is read from the environment once, at module
import.  After the environment changes so that a fresh resolution would give
the database name "newdb", a request served without a restart (same module
state, loaded under the initial environment) still connects with the
import-time name "gwsdb": the environment change is not reflected. -/
theorem env_change_not_reflected :
    (loadModule envChanged).dbName = "newdb" ∧
    connectDbNames (check_db (loadModule envInit) (fsHost "db1")
        (DbWorld.connected (QueryOutcome.ok "PostgreSQL 16.4"))).2 = ["gwsdb"] ∧
    ("gwsdb" : String) ≠ "newdb" :=
  ⟨rfl, rfl, by decide⟩

/-- Claim C5, amended: the host, port, user and password fields are all
re-resolved from the secret files on every request and never cached — two
requests served against different file contents (same module state, so no
restart) each resolve every one of the four fields to the stripped contents
of the file current at their own request; the secret-directory path and the
database name, in contrast, are environment values frozen at module import. -/
theorem config_fresh_from_files (ms : ModuleState) (fs1 fs2 : Fs)
    (ch1 cp1 cu1 cw1 ch2 cp2 cu2 cw2 : String)
    (h1h : (fs1).file (osPathJoin ms.dbSecretDir "host") = FileState.readable ch1)
    (h1p : (fs1).file (osPathJoin ms.dbSecretDir "port") = FileState.readable cp1)
    (h1u : (fs1).file (osPathJoin ms.dbSecretDir "username") = FileState.readable cu1)
    (h1w : (fs1).file (osPathJoin ms.dbSecretDir "password") = FileState.readable cw1)
    (h2h : (fs2).file (osPathJoin ms.dbSecretDir "host") = FileState.readable ch2)
    (h2p : (fs2).file (osPathJoin ms.dbSecretDir "port") = FileState.readable cp2)
    (h2u : (fs2).file (osPathJoin ms.dbSecretDir "username") = FileState.readable cu2)
    (h2w : (fs2).file (osPathJoin ms.dbSecretDir "password") = FileState.readable cw2) :
    (get_db_config ms fs1).1 =
      .ok { host := pyStrip ch1, port := pyStrip cp1, user := pyStrip cu1,
            password := pyStrip cw1 } ∧
    (get_db_config ms fs2).1 =
      .ok { host := pyStrip ch2, port := pyStrip cp2, user := pyStrip cu2,
            password := pyStrip cw2 } :=
  ⟨get_db_config_of_files ms fs1 ch1 cp1 cu1 cw1 h1h h1p h1u h1w,
   get_db_config_of_files ms fs2 ch2 cp2 cu2 cw2 h2h h2p h2u h2w⟩

/-- Claim C5 witness: a request before the secret files change resolves all
four fields to the old stripped values, and a request after the change (same
module state, so no restart) resolves all four to the new values. -/
theorem config_fresh_from_files_witness :
    (get_db_config ms0 (fsAll "old-db\n" "5433\n" "alice\n" "oldpw\n")).1 =
      .ok { host := "old-db", port := "5433", user := "alice", password := "oldpw" } ∧
    (get_db_config ms0 (fsAll "new-db" "6544" "bob" "newpw")).1 =
      .ok { host := "new-db", port := "6544", user := "bob", password := "newpw" } :=
  config_fresh_from_files ms0
    (fsAll "old-db\n" "5433\n" "alice\n" "oldpw\n") (fsAll "new-db" "6544" "bob" "newpw")
    "old-db\n" "5433\n" "alice\n" "oldpw\n" "new-db" "6544" "bob" "newpw"
    rfl rfl rfl rfl rfl rfl rfl rfl

/-- Claim C6: when the secret file of a field is absent, _read_secret returns the
fallback value without raising — the result is a non-error value and the only
effect is the attempted read. -/
theorem read_secret_absent_fallback (ms : ModuleState) (fs : Fs) (k fb : String)
    (h : fs.file (osPathJoin ms.dbSecretDir k) = FileState.absent) :
    read_secret ms fs k fb = (.ok fb, [.readFile (osPathJoin ms.dbSecretDir k)]) := by
  unfold read_secret openFile
  simp [h]

/-- Claim C6 witness: with no files at all, the host read degrades to the
empty-string fallback with no error. -/
theorem read_secret_absent_fallback_witness :
    read_secret ms0 fsEmpty "host" "" =
      (.ok "", [.readFile (osPathJoin (ms0).dbSecretDir "host")]) :=
  read_secret_absent_fallback ms0 fsEmpty "host" "" rfl

/-- Claim C7: when the secret file of a field exists and is readable, _read_secret
returns its contents with surrounding whitespace stripped. -/
theorem read_secret_trims_content (ms : ModuleState) (fs : Fs) (k fb c : String)
    (h : fs.file (osPathJoin ms.dbSecretDir k) = FileState.readable c) :
    (read_secret ms fs k fb).1 = .ok (pyStrip c) := by
  unfold read_secret openFile
  simp [h]

/-- Claim C7 witness: a host file containing "db.example.com" followed by a
newline resolves to exactly "db.example.com". -/
theorem read_secret_trims_content_witness :
    (read_secret ms0 (fsHost "db.example.com\n") "host" "").1 = .ok "db.example.com" :=
  read_secret_trims_content ms0 (fsHost "db.example.com\n") "host" "" "db.example.com\n" rfl

/-- Claim C8: on the success path, the reported version string is the raw
query result truncated at the first comma, and therefore contains no comma at
all. -/
theorem check_db_version_first_segment (ms : ModuleState) (fs : Fs) (raw : String)
    (cfg : DbConfig)
    (hc : (get_db_config ms fs).1 = .ok cfg) (hh : ¬ cfg.host = "") :
    (check_db ms fs (DbWorld.connected (QueryOutcome.ok raw))).1 =
      .ok (true, splitFirst raw) ∧
    ',' ∉ (splitFirst raw).data := by
  refine ⟨?_, splitFirst_no_comma raw⟩
  unfold check_db
  rcases hg : get_db_config ms fs with ⟨rc, t0⟩
  rw [hg] at hc
  simp only at hc
  subst hc
  simp [hh]

/-- Claim C8 witness: a realistic version row is truncated to its first
comma-delimited segment. -/
theorem check_db_version_first_segment_witness :
    (check_db ms0 (fsHost "db1") (DbWorld.connected (QueryOutcome.ok
        "PostgreSQL 16.4 on x86_64, compiled by gcc, 64-bit"))).1 =
      .ok (true, splitFirst "PostgreSQL 16.4 on x86_64, compiled by gcc, 64-bit") ∧
    ',' ∉ (splitFirst "PostgreSQL 16.4 on x86_64, compiled by gcc, 64-bit").data :=
  check_db_version_first_segment ms0 (fsHost "db1")
    "PostgreSQL 16.4 on x86_64, compiled by gcc, 64-bit"
    { host := "db1", port := "5432", user := "pgadmin", password := "" }
    rfl (by decide)

/-- Claim C9: the /healthz handler returns the fixed plain-text response
"ok" with status 200 regardless of the world — module state, filesystem and
database do not affect it — and it performs no effect: no configuration read
and no database access. -/
theorem healthz_always_ok (ms ms2 : ModuleState) (fs fs2 : Fs) (db db2 : DbWorld) :
    (healthz ms fs db).1 = ("ok", 200) ∧
    (healthz ms fs db).2 = [] ∧
    healthz ms fs db = healthz ms2 fs2 db2 :=
  ⟨rfl, rfl, rfl⟩

/-- Claim C10: the root handler resolves the configuration once for display
and once inside the health check; both resolutions are the same function of
the unchanged module state and filesystem, so the host and port on the page are
exactly those of every connection attempt the health check made. -/
theorem index_config_consistent (ms : ModuleState) (fs : Fs) (db : DbWorld)
    (cfg : DbConfig) (page : Page)
    (hc : (get_db_config ms fs).1 = .ok cfg)
    (hp : (index ms fs db).1 = .ok page) :
    page.db_port = cfg.port ∧
    page.db_host = (if cfg.host = "" then "(pending)" else cfg.host) ∧
    (∀ hst po dbn us pw ti,
        Event.connectAttempt hst po dbn us pw ti ∈ (index ms fs db).2 →
        hst = cfg.host ∧ po = cfg.port) := by
  have hA := (get_db_config_counts ms fs).1
  unfold index at hp ⊢
  rcases hg : get_db_config ms fs with ⟨rc, t1⟩
  rw [hg] at hc hA hp
  simp only at hc hA
  simp only [countAttempts] at hA
  subst hc
  rcases hk : check_db ms fs db with ⟨rc2, t2⟩
  rw [hk] at hp
  rcases rc2 with e | r
  · simp at hp
  · simp only at hp
    have hpage : page = { db_ok := r.1
                          db_version := if r.1 then r.2 else ""
                          db_error := if r.1 then "" else r.2
                          db_host := if cfg.host = "" then "(pending)" else cfg.host
                          db_port := cfg.port } := by
      simp at hp
      exact hp.symm
    subst hpage
    refine ⟨rfl, rfl, ?_⟩
    intro hst po dbn us pw ti hmem
    simp only [List.mem_append] at hmem
    rcases hmem with hm | hm
    · exfalso
      have := List.countP_eq_zero.mp hA _ hm
      simp [isConnectAttempt] at this
    · have hm2 : Event.connectAttempt hst po dbn us pw ti ∈ (check_db ms fs db).2 := by
        rw [hk]
        exact hm
      exact check_db_connect_params ms fs db cfg (by rw [hg]) hst po dbn us pw ti hm2

/-- Claim C10 witness: on a concrete successful run, the rendered host and
port are those of the single connection attempt. -/
theorem index_config_consistent_witness :
    ({ db_ok := true, db_version := "PostgreSQL 16.4", db_error := "",
       db_host := "db1", db_port := "5432" } : Page).db_port =
      ({ host := "db1", port := "5432", user := "pgadmin", password := "" } : DbConfig).port ∧
    ({ db_ok := true, db_version := "PostgreSQL 16.4", db_error := "",
       db_host := "db1", db_port := "5432" } : Page).db_host =
      (if ({ host := "db1", port := "5432", user := "pgadmin",
             password := "" } : DbConfig).host = "" then "(pending)"
       else ({ host := "db1", port := "5432", user := "pgadmin",
               password := "" } : DbConfig).host) ∧
    (∀ hst po dbn us pw ti,
        Event.connectAttempt hst po dbn us pw ti ∈
          (index ms0 (fsHost "db1")
            (DbWorld.connected (QueryOutcome.ok "PostgreSQL 16.4, compiled by gcc"))).2 →
        hst = ({ host := "db1", port := "5432", user := "pgadmin",
                 password := "" } : DbConfig).host ∧
        po = ({ host := "db1", port := "5432", user := "pgadmin",
                password := "" } : DbConfig).port) :=
  index_config_consistent ms0 (fsHost "db1")
    (DbWorld.connected (QueryOutcome.ok "PostgreSQL 16.4, compiled by gcc"))
    { host := "db1", port := "5432", user := "pgadmin", password := "" }
    { db_ok := true, db_version := "PostgreSQL 16.4", db_error := "",
      db_host := "db1", db_port := "5432" }
    rfl rfl

end Dashboard
